import Mathlib

/-!
Verification of the Signal ↔ Home Assistant bridge (signal-ha-bridge).

This file shallowly embeds the message transport, RPC correlation,
deduplication, authorization and command dispatch logic of the
repository (src/setup.sh embedded client, src/src/signal-client.js)
and proves or refutes the specified claims about them.

JS-specific conventions captured here:
  * a JS `Map` is modelled as an association list in insertion order;
    `Map.set` overwrites an existing key in place, otherwise appends;
  * a JS `Set` is modelled as a duplicate-free list in insertion order;
    `Set.values().next().value` is the head (the oldest element);
  * JS string truthiness (`s || d` falls back on the empty string,
    `x ? ... : null` treats the empty string as absent) is modelled by
    `jsOr` and `jsStrOpt`.
-/

/-- JS `Map.set`: overwrite the value in place when the key already
exists (keeping its position), otherwise append at the end. -/
def mapSet {β : Type} (m : List (String × β)) (k : String) (v : β) :
    List (String × β) :=
  match m with
  | [] => [(k, v)]
  | (k', v') :: rest =>
    if k' = k then (k, v) :: rest else (k', v') :: mapSet rest k v

/-- JS `Map.get` / `Map.has`: first entry with the given key. -/
def mapLookup {β : Type} (m : List (String × β)) (k : String) : Option β :=
  match m with
  | [] => none
  | (k', v) :: rest => if k' = k then some v else mapLookup rest k

/-- JS `s || d` on a possibly-absent string: the fallback `d` is used
both when the value is absent and when it is the empty string. -/
def jsOr (o : Option String) (d : String) : String :=
  match o with
  | some s => if s = "" then d else s
  | none => d

/-- JS truthiness of a possibly-absent string: the empty string counts
as absent (`x ? f x : null`). -/
def jsStrOpt (o : Option String) : Option String :=
  match o with
  | some s => if s = "" then none else some s
  | none => none

/-- JS string interpolation of a possibly-undefined value renders the
literal text `undefined`. -/
def optStr (o : Option String) : String := o.getD "undefined"

/-!
Executable models of the JS string primitives the source uses
(`toLowerCase`, `trim`, `split`, one-shot and global `replace`,
`startsWith`, `includes`), written over the character list of a
string so that they evaluate inside the kernel.  `toLowerCase` is
modelled at the ASCII level, which covers every identifier, command
keyword and entity id the bridge manipulates.
-/

/-- JS `toLowerCase` (ASCII). -/
def strLower (s : String) : String := String.mk (s.data.map Char.toLower)

/-- The whitespace stripped by JS `trim`. -/
def wsChar (c : Char) : Bool := c = ' ' || c = '\t' || c = '\n' || c = '\r'

/-- JS `trim`: strip whitespace from both ends. -/
def strTrim (s : String) : String :=
  String.mk (((s.data.dropWhile wsChar).reverse.dropWhile wsChar).reverse)

/-- Split at the first occurrence of `pat`: `l = pre ++ pat ++ post`. -/
def listSplitFirst (pat : List Char) :
    List Char → Option (List Char × List Char)
  | [] => if pat = [] then some ([], []) else none
  | c :: rest =>
    if pat.isPrefixOf (c :: rest) then some ([], (c :: rest).drop pat.length)
    else
      match listSplitFirst pat rest with
      | some (pre, post) => some (c :: pre, post)
      | none => none

/-- JS `String.prototype.replace` with a string pattern: remove only
the first occurrence of `pat`. -/
def removeFirst (s pat : String) : String :=
  match listSplitFirst pat.data s.data with
  | some (pre, post) => String.mk (pre ++ post)
  | none => s

/-- Does `pat` occur inside `l`?  (JS `includes`.) -/
def listHasInfix (pat : List Char) : List Char → Bool
  | [] => pat.isEmpty
  | c :: rest => pat.isPrefixOf (c :: rest) || listHasInfix pat rest

/-- JS `s.includes(sub)`. -/
def strIncludes (s sub : String) : Bool := listHasInfix sub.data s.data

/-- JS `s.startsWith(pat)`. -/
def strStartsWith (s pat : String) : Bool := pat.data.isPrefixOf s.data

/-- `messageRetention = 1000` from the polling loop
(src/src/signal-client.js line 736). -/
def messageRetention : Nat := 1000

/-- One deduplication step of the polling loop
(src/src/signal-client.js lines 745-754):

    if (processedMessages.has(msgId)) continue;
    if (processedMessages.size > messageRetention) {
      const iterator = processedMessages.values();
      processedMessages.delete(iterator.next().value);
    }
    processedMessages.add(msgId);

Returns whether the identity was admitted as new, and the updated
seen-ID set (oldest first). -/
def dedupAdmit {α : Type} [DecidableEq α] (cap : Nat) (s : List α) (id : α) :
    Bool × List α :=
  if id ∈ s then (false, s)
  else (true, (if s.length > cap then s.drop 1 else s) ++ [id])

/-- Run the dedup step over a whole sequence of message identities. -/
def dedupRun {α : Type} [DecidableEq α] (cap : Nat) (s : List α)
    (ids : List α) : List α :=
  ids.foldl (fun t id => (dedupAdmit cap t id).2) s

lemma dedupRun_nil {α : Type} [DecidableEq α] (cap : Nat) (s : List α) :
    dedupRun cap s [] = s := rfl

lemma dedupRun_cons {α : Type} [DecidableEq α] (cap : Nat) (s : List α)
    (a : α) (l : List α) :
    dedupRun cap s (a :: l) = dedupRun cap (dedupAdmit cap s a).2 l := rfl

lemma dedupRun_append {α : Type} [DecidableEq α] (cap : Nat) (s : List α)
    (l1 l2 : List α) :
    dedupRun cap s (l1 ++ l2) = dedupRun cap (dedupRun cap s l1) l2 :=
  List.foldl_append _ _ _ _

/-- While the set stays within capacity, fresh distinct identities are
appended without any eviction. -/
lemma dedupRun_of_nodup {α : Type} [DecidableEq α] (cap : Nat) :
    ∀ (l s : List α), (s ++ l).Nodup → s.length + l.length ≤ cap + 1 →
      dedupRun cap s l = s ++ l := by
  intro l
  induction l with
  | nil => intro s _ _; simp [dedupRun]
  | cons a t ih =>
    intro s hnd hlen
    have ha : a ∉ s := by
      rcases (List.nodup_append.mp hnd) with ⟨_, _, hdisj⟩
      intro hmem
      exact hdisj hmem (List.mem_cons_self a t)
    have hcap : ¬ s.length > cap := by
      simp only [List.length_cons] at hlen
      omega
    have hstep : (dedupAdmit cap s a).2 = s ++ [a] := by
      simp [dedupAdmit, ha, hcap]
    rw [dedupRun_cons, hstep]
    have hnd' : ((s ++ [a]) ++ t).Nodup := by
      simpa [List.append_assoc] using hnd
    have hlen' : (s ++ [a]).length + t.length ≤ cap + 1 := by
      simp only [List.length_append, List.length_singleton]
      simp only [List.length_cons] at hlen
      omega
    rw [ih (s ++ [a]) hnd' hlen']
    simp

/-- A single dedup step never pushes the set beyond `cap + 1` entries. -/
lemma dedupAdmit_length_le {α : Type} [DecidableEq α] (cap : Nat)
    (s : List α) (id : α) (h : s.length ≤ cap + 1) :
    (dedupAdmit cap s id).2.length ≤ cap + 1 := by
  by_cases hmem : id ∈ s
  · simpa [dedupAdmit, hmem] using h
  · by_cases hlen : s.length > cap
    · simp [dedupAdmit, hmem, hlen]
      omega
    · simp [dedupAdmit, hmem, hlen]
      omega

/-- The seen-ID set is bounded by `cap + 1` along any run. -/
lemma dedupRun_length_le {α : Type} [DecidableEq α] (cap : Nat) :
    ∀ (l s : List α), s.length ≤ cap + 1 →
      (dedupRun cap s l).length ≤ cap + 1 := by
  intro l
  induction l with
  | nil => intro s h; simpa [dedupRun] using h
  | cons a t ih =>
    intro s h
    rw [dedupRun_cons]
    exact ih _ (dedupAdmit_length_le cap s a h)

/-- C2 counterexample: after admitting `capacity + 1 = 1001` distinct
identities starting from an empty set, the set holds 1001 entries —
it exceeds the configured capacity of 1000 — and the very first
identity is still present, so re-admitting it returns `false`,
contrary to the claim. -/
theorem seenIdSet_capacity_cex :
    (dedupRun messageRetention ([] : List Nat)
        (List.range (messageRetention + 1))).length
      = messageRetention + 1 ∧
    messageRetention + 1 > messageRetention ∧
    (0 : Nat) ∈ dedupRun messageRetention ([] : List Nat)
        (List.range (messageRetention + 1)) ∧
    (dedupAdmit messageRetention
        (dedupRun messageRetention ([] : List Nat)
          (List.range (messageRetention + 1))) 0).1 = false := by
  have hrun : dedupRun messageRetention ([] : List Nat)
      (List.range (messageRetention + 1))
      = List.range (messageRetention + 1) := by
    simpa using dedupRun_of_nodup messageRetention
      (List.range (messageRetention + 1)) []
      (by simpa using List.nodup_range (messageRetention + 1))
      (by simp)
  have hmem : (0 : Nat) ∈ List.range (messageRetention + 1) := by
    simp [List.mem_range]
  refine ⟨by rw [hrun]; simp, by omega, by rw [hrun]; exact hmem, ?_⟩
  rw [hrun]
  simp [dedupAdmit, hmem]

/-- C2 amended: the seen-ID set is bounded by `capacity + 1` (1001),
not by the capacity itself: eviction of the single oldest identity
happens only when an insertion finds the size already strictly above
capacity.  Consequently it takes `capacity + 2` distinct insertions —
not `capacity + 1` — before the very first identity has been evicted
and is admitted as new again. -/
theorem seenIdSet_bound_amended :
    (∀ ids : List Nat,
      (dedupRun messageRetention ([] : List Nat) ids).length
        ≤ messageRetention + 1) ∧
    (0 : Nat) ∉ dedupRun messageRetention ([] : List Nat)
        (List.range (messageRetention + 2)) ∧
    (dedupAdmit messageRetention
        (dedupRun messageRetention ([] : List Nat)
          (List.range (messageRetention + 2))) 0).1 = true := by
  have hrun : dedupRun messageRetention ([] : List Nat)
      (List.range (messageRetention + 1))
      = List.range (messageRetention + 1) := by
    simpa using dedupRun_of_nodup messageRetention
      (List.range (messageRetention + 1)) []
      (by simpa using List.nodup_range (messageRetention + 1))
      (by simp)
  have hsplit : List.range (messageRetention + 2)
      = List.range (messageRetention + 1) ++ [messageRetention + 1] :=
    List.range_succ (messageRetention + 1)
  have hnotmem : (messageRetention + 1) ∉
      List.range (messageRetention + 1) := by
    simp [List.mem_range]
  have hlong : (List.range (messageRetention + 1)).length
      > messageRetention := by
    simp
  have hlast : dedupRun messageRetention ([] : List Nat)
      (List.range (messageRetention + 2))
      = (List.range (messageRetention + 1)).drop 1
        ++ [messageRetention + 1] := by
    rw [hsplit, dedupRun_append, hrun, dedupRun_cons, dedupRun_nil]
    simp [dedupAdmit, hnotmem, hlong]
  have hzero : (0 : Nat) ∉ (List.range (messageRetention + 1)).drop 1
      ++ [messageRetention + 1] := by
    have hdrop : (List.range (messageRetention + 1)).drop 1
        = (List.range messageRetention).map Nat.succ := by
      rw [List.range_succ_eq_map]
      simp
    rw [hdrop]
    simp [List.mem_map]
  refine ⟨fun ids => dedupRun_length_le messageRetention ids [] (by simp),
    ?_, ?_⟩
  · rw [hlast]; exact hzero
  · rw [hlast]
    simp only [dedupAdmit]
    rw [if_neg hzero]

/-!
## Chat transport data model (src/setup.sh embedded client)
-/

/-- `dataMessage.groupInfo` of a Signal envelope. -/
structure GroupDetail where
  groupId : String
  name : Option String
deriving DecidableEq

/-- `dataMessage` of a Signal envelope (`message`, `timestamp`,
`groupInfo`, `attachments`). -/
structure DataMessage where
  timestamp : Nat
  message : Option String
  groupInfo : Option GroupDetail
  attachments : List String
deriving DecidableEq

/-- One raw inbound envelope from the Signal backend. -/
structure Envelope where
  source : String
  dataMessage : Option DataMessage
deriving DecidableEq

/-- `replyTo` of a normalized message: group replies go to the group,
individual replies go to the sender. -/
inductive ReplyTarget where
  | group (id : String)
  | individual (id : String)
deriving DecidableEq

/-- The normalized inbound-message record built by both transport
variants (src/setup.sh lines 193-202 and 301-310). -/
structure SignalMessage where
  source : String
  timestamp : Nat
  message : Option String
  attachments : List String
  isGroup : Bool
  groupId : Option String
  groupName : Option String
  replyTo : ReplyTarget
deriving DecidableEq

/-- Normalization of an envelope that carries a data message
(src/setup.sh lines 186-202): JS `dm.message ? dm.message.trim() :
null` treats the empty string as absent, and `dm.groupInfo.name ||
'Unknown Group'` falls back on an absent or empty group name. -/
def mkSignalMessage (source : String) (dm : DataMessage) : SignalMessage :=
  let isGroup := dm.groupInfo.isSome
  let groupId := dm.groupInfo.map GroupDetail.groupId
  { source := source
    timestamp := dm.timestamp
    message := (jsStrOpt dm.message).map strTrim
    attachments := dm.attachments
    isGroup := isGroup
    groupId := groupId
    groupName := dm.groupInfo.map (fun g => jsOr g.name "Unknown Group")
    replyTo :=
      match dm.groupInfo with
      | some g => ReplyTarget.group g.groupId
      | none => ReplyTarget.individual source }

/-- The dedup key of the polling loop (src/src/signal-client.js line
745): `msg.timestamp + msg.source + (msg.groupId || '')` — JS number
plus string coerces the timestamp to its decimal representation and
concatenates. -/
def msgId (m : SignalMessage) : String :=
  toString m.timestamp ++ m.source ++ (m.groupId.getD "")

/-- The identity triple the specification names for deduplication:
(timestampMillis, senderId, groupId-or-empty). -/
def msgTriple (m : SignalMessage) : Nat × String × String :=
  (m.timestamp, m.source, m.groupId.getD "")

/-!
## JSON-RPC correlator state machine (src/setup.sh lines 94-211)
-/

/-- Mutable state of the socket-variant client: `isConnected`,
`rpcId`, the pending-request map (ids in insertion order) and the
inbound message queue. -/
structure RpcState where
  isConnected : Bool
  rpcId : Nat
  pendingRpc : List Nat
  messageQueue : List SignalMessage
deriving DecidableEq

/-- Externally observable effects of the correlator: resolving or
rejecting a pending caller, or scheduling a reconnect. -/
inductive RpcAction where
  | resolveOk (id : Nat) (result : Option String)
  | rejectError (id : Nat) (message : String)
  | scheduleReconnect (delayMillis : Nat)
deriving DecidableEq

/-- `setTimeout(..., 30000)` in sendJsonRpc (src/setup.sh line 177). -/
def rpcTimeoutMillis : Nat := 30000

/-- `setTimeout(() => this.connectJsonRpc(), 5000)` in the close
handler (src/setup.sh line 120). -/
def reconnectDelayMillis : Nat := 5000

/-- `processEnvelope` (src/setup.sh lines 183-211): push a normalized
message onto the queue unless the envelope has no `dataMessage` or was
sent by the bridge's own number. -/
def processEnvelope (number : String) (s : RpcState) (env : Envelope) :
    RpcState :=
  match env.dataMessage with
  | none => s
  | some dm =>
    if env.source = number then s
    else { s with messageQueue :=
      s.messageQueue ++ [mkSignalMessage env.source dm] }

/-- A parsed inbound JSON-RPC frame as inspected by
`handleJsonRpcMessage`: optional `id`, `error.message`, `result`,
`method` and `params`. -/
structure RpcInbound where
  id : Option Nat
  error : Option String
  result : Option String
  method : Option String
  params : Option Envelope

/-- The notification path of `handleJsonRpcMessage` (src/setup.sh
lines 142-146): `if (msg.method === 'receive' && msg.params)`. -/
def handleNotification (number : String) (s : RpcState)
    (msg : RpcInbound) : RpcState × List RpcAction :=
  if msg.method = some "receive" then
    match msg.params with
    | some env => (processEnvelope number s env, [])
    | none => (s, [])
  else (s, [])

/-- `handleJsonRpcMessage` (src/setup.sh lines 125-150): a frame whose
`id` is truthy and currently pending removes the pending entry and
resolves or rejects the caller; any other frame is routed to the
notification check. -/
def handleJsonRpcMessage (number : String) (s : RpcState)
    (msg : RpcInbound) : RpcState × List RpcAction :=
  match msg.id with
  | some i =>
    if i ≠ 0 ∧ i ∈ s.pendingRpc then
      let s' := { s with
        pendingRpc := s.pendingRpc.filter (fun j => decide (j ≠ i)) }
      match msg.error with
      | some e => (s', [RpcAction.rejectError i e])
      | none => (s', [RpcAction.resolveOk i msg.result])
    else handleNotification number s msg
  | none => handleNotification number s msg

/-- The registration half of `sendJsonRpc` (src/setup.sh lines
152-180): refuse when not connected, otherwise assign the next
strictly increasing id and record a pending entry. -/
def sendJsonRpc (s : RpcState) : Except String (RpcState × Nat) :=
  if s.isConnected = false then Except.error "JSON-RPC not connected"
  else
    let i := s.rpcId + 1
    Except.ok ({ s with rpcId := i, pendingRpc := s.pendingRpc ++ [i] }, i)

/-- The 30-second timeout callback of `sendJsonRpc` (src/setup.sh
lines 172-177): if the id is still pending, remove it and reject the
caller with the timeout error; otherwise do nothing. -/
def timeoutFire (s : RpcState) (i : Nat) : RpcState × List RpcAction :=
  if i ∈ s.pendingRpc then
    ({ s with pendingRpc := s.pendingRpc.filter (fun j => decide (j ≠ i)) },
      [RpcAction.rejectError i "JSON-RPC timeout"])
  else (s, [])

/-- The `ws.on('close')` handler (src/setup.sh lines 117-121): clear
the connected flag and schedule a reconnect after the fixed backoff.
The pending-request map is not touched. -/
def onClose (s : RpcState) : RpcState × List RpcAction :=
  ({ s with isConnected := false },
    [RpcAction.scheduleReconnect reconnectDelayMillis])

/-- `receiveMessages` in JSON-RPC mode (src/setup.sh lines 270-275):
drain and clear the queue. -/
def drainQueue (s : RpcState) : RpcState × List SignalMessage :=
  ({ s with messageQueue := [] }, s.messageQueue)

/-!
## Polling-mode receive (src/setup.sh lines 281-321)
-/

/-- The envelope filter of `receiveMessagesRest` (src/setup.sh lines
293-312): keep only envelopes with a `dataMessage` whose source is not
the bridge's own number, normalized in order. -/
def restParseEnvelopes (number : String) (envs : List Envelope) :
    List SignalMessage :=
  envs.filterMap (fun env =>
    match env.dataMessage with
    | some dm =>
      if env.source = number then none
      else some (mkSignalMessage env.source dm)
    | none => none)

/-- Outcome of the long-poll `GET /v1/receive/{number}`: a success
carries `response.data` (`none` when missing or not an array), a
failure carries `err.message` and, when the server answered,
`err.response` with its status and body. -/
inductive HttpReceiveResult where
  | success (data : Option (List Envelope))
  | failure (response : Option (Nat × Option String)) (message : String)
deriving DecidableEq

/-- `receiveMessagesRest` (src/setup.sh lines 281-321): non-array or
missing data gives no messages; the catch block turns exactly a
status-400 response into no messages and rethrows anything else. -/
def receiveMessagesRest (number : String) (r : HttpReceiveResult) :
    Except String (List SignalMessage) :=
  match r with
  | HttpReceiveResult.success none => Except.ok []
  | HttpReceiveResult.success (some envs) =>
    Except.ok (restParseEnvelopes number envs)
  | HttpReceiveResult.failure (some (status, _body)) msg =>
    if status = 400 then Except.ok [] else Except.error msg
  | HttpReceiveResult.failure none msg => Except.error msg

/-- A concrete correlator state with one in-flight request. -/
def rpcStateOnePending : RpcState :=
  { isConnected := true, rpcId := 1, pendingRpc := [1], messageQueue := [] }

/-- C1 counterexample: with request id 1 in flight, the close handler
leaves the pending entry registered and emits only the reconnect
scheduling — no `rejectError` (no `ConnectionLost` rejection) happens
at the moment of the close, contrary to the claim that the correlator
is reset. -/
theorem close_keeps_pending_cex :
    (onClose rpcStateOnePending).1.pendingRpc = [1] ∧
    (onClose rpcStateOnePending).2
      = [RpcAction.scheduleReconnect 5000] := by
  exact ⟨rfl, rfl⟩

/-- C1 amended: on unexpected close the connected flag is cleared and
a reconnect is scheduled after the fixed 5s backoff, but the
correlator is not reset: every pending entry survives the close
unchanged and is rejected only later, when its own 30-second timeout
fires (with the generic timeout error, not a `ConnectionLost`
rejection at close time). -/
theorem close_preserves_pending_amended (s : RpcState) (i : Nat)
    (h : i ∈ s.pendingRpc) :
    (onClose s).1.pendingRpc = s.pendingRpc ∧
    (onClose s).1.isConnected = false ∧
    (onClose s).2 = [RpcAction.scheduleReconnect reconnectDelayMillis] ∧
    (timeoutFire (onClose s).1 i).2
      = [RpcAction.rejectError i "JSON-RPC timeout"] := by
  refine ⟨rfl, rfl, rfl, ?_⟩
  simp only [timeoutFire, onClose]
  rw [if_pos h]

/-- Witness for the amended C1 theorem at a concrete state. -/
theorem close_preserves_pending_amended_witness :
    (onClose rpcStateOnePending).1.pendingRpc
        = rpcStateOnePending.pendingRpc ∧
    (onClose rpcStateOnePending).1.isConnected = false ∧
    (onClose rpcStateOnePending).2
        = [RpcAction.scheduleReconnect reconnectDelayMillis] ∧
    (timeoutFire (onClose rpcStateOnePending).1 1).2
        = [RpcAction.rejectError 1 "JSON-RPC timeout"] :=
  close_preserves_pending_amended rpcStateOnePending 1 (by decide)

/-- C6: once the 30-second deadline fires for a still-pending request,
the caller is rejected with the timeout error and the pending entry is
removed; a response frame for that id arriving afterwards leaves the
state untouched and resolves or rejects nobody. -/
theorem rpc_timeout_then_late_response_noop (number : String)
    (s : RpcState) (i : Nat) (res : Option String)
    (h : i ∈ s.pendingRpc) :
    rpcTimeoutMillis = 30000 ∧
    (timeoutFire s i).2 = [RpcAction.rejectError i "JSON-RPC timeout"] ∧
    i ∉ (timeoutFire s i).1.pendingRpc ∧
    handleJsonRpcMessage number (timeoutFire s i).1
        { id := some i, error := none, result := res,
          method := none, params := none }
      = ((timeoutFire s i).1, []) := by
  have hfire : timeoutFire s i
      = ({ s with pendingRpc := s.pendingRpc.filter (fun j => decide (j ≠ i)) },
        [RpcAction.rejectError i "JSON-RPC timeout"]) := by
    simp only [timeoutFire]
    rw [if_pos h]
  have hnot : i ∉ s.pendingRpc.filter (fun j => decide (j ≠ i)) := by
    intro hmem
    have := List.of_mem_filter hmem
    simp at this
  refine ⟨rfl, by rw [hfire], by rw [hfire]; exact hnot, ?_⟩
  rw [hfire]
  simp only [handleJsonRpcMessage]
  rw [if_neg (by
    intro hcontra
    exact hnot hcontra.2)]
  rfl

/-- Witness for the C6 theorem at a concrete state. -/
theorem rpc_timeout_then_late_response_noop_witness :
    rpcTimeoutMillis = 30000 ∧
    (timeoutFire rpcStateOnePending 1).2
        = [RpcAction.rejectError 1 "JSON-RPC timeout"] ∧
    1 ∉ (timeoutFire rpcStateOnePending 1).1.pendingRpc ∧
    handleJsonRpcMessage "me" (timeoutFire rpcStateOnePending 1).1
        { id := some 1, error := none, result := none,
          method := none, params := none }
      = ((timeoutFire rpcStateOnePending 1).1, []) :=
  rpc_timeout_then_late_response_noop "me" rpcStateOnePending 1 none
    (by decide)

/-- C7 counterexample: a non-success response with status 500 and no
body is not treated as "no messages" — the error propagates, contrary
to the claim that every non-success status with no body yields an
empty message list. -/
theorem receiveRest_non400_cex :
    receiveMessagesRest "me"
        (HttpReceiveResult.failure (some (500, none)) "Request failed")
      = Except.error "Request failed" := by
  rfl

/-- C7 amended: only a response with status exactly 400 is treated as
"no messages" (regardless of its body); any other non-success status,
and any error without a response object, propagates to the caller. -/
theorem receiveRest_status400_amended (number : String) (status : Nat)
    (body : Option String) (msg : String) (h : status ≠ 400) :
    receiveMessagesRest number
        (HttpReceiveResult.failure (some (400, body)) msg)
      = Except.ok [] ∧
    receiveMessagesRest number
        (HttpReceiveResult.failure (some (status, body)) msg)
      = Except.error msg ∧
    receiveMessagesRest number (HttpReceiveResult.failure none msg)
      = Except.error msg := by
  refine ⟨rfl, ?_, rfl⟩
  simp only [receiveMessagesRest]
  rw [if_neg h]

/-- Witness for the amended C7 theorem at a concrete status. -/
theorem receiveRest_status400_amended_witness :
    receiveMessagesRest "me"
        (HttpReceiveResult.failure (some (400, none)) "boom")
      = Except.ok [] ∧
    receiveMessagesRest "me"
        (HttpReceiveResult.failure (some (500, none)) "boom")
      = Except.error "boom" ∧
    receiveMessagesRest "me" (HttpReceiveResult.failure none "boom")
      = Except.error "boom" :=
  receiveRest_status400_amended "me" 500 none "boom" (by decide)

/-- An admitted id is always present in the set afterwards. -/
lemma dedupAdmit_mem_self {α : Type} [DecidableEq α] (cap : Nat)
    (s : List α) (id : α) : id ∈ (dedupAdmit cap s id).2 := by
  by_cases h : id ∈ s <;> simp [dedupAdmit, h]

/-- An individual message with timestamp 1 from sender "ab". -/
def msgIndivAB : SignalMessage :=
  { source := "ab", timestamp := 1, message := some "hi",
    attachments := [], isGroup := false, groupId := none,
    groupName := none, replyTo := ReplyTarget.individual "ab" }

/-- A group message with timestamp 1 from sender "a" in group "b". -/
def msgGroupAB : SignalMessage :=
  { source := "a", timestamp := 1, message := some "hi",
    attachments := [], isGroup := true, groupId := some "b",
    groupName := some "g", replyTo := ReplyTarget.group "b" }

/-- Same identity triple as `msgIndivAB` but different body text. -/
def msgIndivAB2 : SignalMessage :=
  { source := "ab", timestamp := 1, message := some "hello",
    attachments := [], isGroup := false, groupId := none,
    groupName := none, replyTo := ReplyTarget.individual "ab" }

/-- C5 counterexample: the dedup key is string concatenation of the
triple's components, which is not injective.  The individual message
(timestamp 1, sender "ab", no group) and the group message (timestamp
1, sender "a", group "b") have different identity triples but the same
key "1ab", so after the first is admitted the second is skipped as a
duplicate — contrary to the claim that messages with different triples
never shadow each other. -/
theorem msgId_collision_cex :
    msgTriple msgIndivAB ≠ msgTriple msgGroupAB ∧
    msgId msgIndivAB = msgId msgGroupAB ∧
    (dedupAdmit messageRetention ([] : List String)
        (msgId msgIndivAB)).1 = true ∧
    (dedupAdmit messageRetention
        (dedupAdmit messageRetention ([] : List String)
          (msgId msgIndivAB)).2
        (msgId msgGroupAB)).1 = false := by
  decide

/-- C5 amended: two inbound messages are treated as duplicates exactly
when their concatenated dedup keys (decimal timestamp ++ sender ++
groupId-or-empty) agree.  Agreement on the identity triple still
implies agreement on the key, so a message with the same triple as an
already-admitted one is always skipped; but distinct triples can
collide on the key (the concatenation is not injective), and such a
collision also causes a skip. -/
theorem msgId_triple_amended (m1 m2 : SignalMessage) (s : List String)
    (h : msgTriple m1 = msgTriple m2) :
    msgId m1 = msgId m2 ∧
    (dedupAdmit messageRetention
        (dedupAdmit messageRetention s (msgId m1)).2 (msgId m2)).1
      = false := by
  have hts : m1.timestamp = m2.timestamp := congrArg Prod.fst h
  have hsrc : m1.source = m2.source :=
    congrArg (fun p => p.2.1) h
  have hgrp : m1.groupId.getD "" = m2.groupId.getD "" :=
    congrArg (fun p => p.2.2) h
  have hid : msgId m1 = msgId m2 := by
    simp only [msgId, hts, hsrc, hgrp]
  refine ⟨hid, ?_⟩
  have hmem : msgId m2 ∈ (dedupAdmit messageRetention s (msgId m1)).2 := by
    rw [← hid]
    exact dedupAdmit_mem_self messageRetention s (msgId m1)
  generalize hT : (dedupAdmit messageRetention s (msgId m1)).2 = T at hmem ⊢
  simp [dedupAdmit, hmem]

/-- Witness for the amended C5 theorem: two messages sharing the
identity triple (differing body text), the second of which is skipped
after the first is admitted. -/
theorem msgId_triple_amended_witness :
    msgId msgIndivAB = msgId msgIndivAB2 ∧
    (dedupAdmit messageRetention
        (dedupAdmit messageRetention [] (msgId msgIndivAB)).2
        (msgId msgIndivAB2)).1 = false :=
  msgId_triple_amended msgIndivAB msgIndivAB2 [] (by decide)

/-- A data message from a foreign sender, used as a concrete input. -/
def dmDemo : DataMessage :=
  { timestamp := 5, message := some "hi", groupInfo := none,
    attachments := [] }

/-- A foreign-sourced envelope carrying `dmDemo`. -/
def envForeign : Envelope := { source := "you", dataMessage := some dmDemo }

/-- C10: in both transport modes every surfaced message originates
from an envelope carrying a `dataMessage` whose source differs from
the bridge's own number — the polling filter, the socket envelope
processor, and the socket queue drain never surface the bridge's own
outbound messages. -/
theorem receive_only_foreign_data_messages (number : String) :
    (∀ (envs : List Envelope) (m : SignalMessage),
      m ∈ restParseEnvelopes number envs →
      ∃ e dm, e ∈ envs ∧ e.dataMessage = some dm ∧ e.source ≠ number ∧
        m = mkSignalMessage e.source dm) ∧
    (∀ (s : RpcState) (env : Envelope),
      (processEnvelope number s env).messageQueue = s.messageQueue ∨
      ∃ dm, env.dataMessage = some dm ∧ env.source ≠ number ∧
        (processEnvelope number s env).messageQueue
          = s.messageQueue ++ [mkSignalMessage env.source dm]) ∧
    (∀ s : RpcState, (drainQueue s).2 = s.messageQueue) := by
  refine ⟨?_, ?_, fun s => rfl⟩
  · intro envs m hm
    rcases List.mem_filterMap.mp hm with ⟨e, he, hf⟩
    rcases hdm : e.dataMessage with _ | dm
    · rw [hdm] at hf
      exact absurd hf (by simp)
    · rw [hdm] at hf
      by_cases hsrc : e.source = number
      · simp [hsrc] at hf
      · simp [hsrc] at hf
        exact ⟨e, dm, he, hdm, hsrc, hf.symm⟩
  · intro s env
    rcases hdm : env.dataMessage with _ | dm
    · left
      simp [processEnvelope, hdm]
    · by_cases hsrc : env.source = number
      · left
        simp [processEnvelope, hdm, hsrc]
      · right
        exact ⟨dm, rfl, hsrc, by simp [processEnvelope, hdm, hsrc]⟩

/-- Witness for the C10 theorem at a concrete envelope list. -/
theorem receive_only_foreign_data_messages_witness :
    ∃ e dm, e ∈ [envForeign] ∧ e.dataMessage = some dm ∧
      e.source ≠ "me" ∧
      mkSignalMessage "you" dmDemo = mkSignalMessage e.source dm :=
  (receive_only_foreign_data_messages "me").1 [envForeign]
    (mkSignalMessage "you" dmDemo)
    (by
      rw [show restParseEnvelopes "me" [envForeign]
          = [mkSignalMessage "you" dmDemo] from rfl]
      exact List.mem_singleton.mpr rfl)


/-!
## Entity cache and command parser (src/src/signal-client.js lines 93-527)
-/

/-- The entity attributes the parser reads.  Attribute values are kept
as opaque strings; an absent attribute is `none` (JS `undefined`). -/
structure HAAttributes where
  friendly_name : Option String
  unit_of_measurement : Option String
  temperature_unit : Option String
  current_temperature : Option String
  temperature : Option String
  brightness : Option String
deriving DecidableEq

/-- One backend entity state, sourced verbatim from `GET /api/states`. -/
structure HAEntity where
  entity_id : String
  state : String
  attributes : HAAttributes
  last_changed : String
deriving DecidableEq

/-- The entity cache: lowercase alias → entity, a JS `Map` in
insertion order. -/
abbrev EntityMap : Type := List (String × HAEntity)

/-- JS `id.split('.')[0]`: the domain prefix of an entity id. -/
def entityDomain (id : String) : String :=
  match listSplitFirst ['.'] id.data with
  | some (pre, _) => String.mk pre
  | none => id

/-- JS `id.split('.')[1]` interpolated into a template (renders
`undefined` when the id has no separator). -/
def entitySuffix (id : String) : String :=
  match listSplitFirst ['.'] id.data with
  | some (_, post) =>
    match listSplitFirst ['.'] post with
    | some (p2, _) => String.mk p2
    | none => String.mk post
  | none => "undefined"

/-- The normalized alias of an entity id (signal-client.js line 116):
domain prefix stripped (first occurrence), underscores replaced by
spaces (`replace(/_/g, ' ')` on the single-character pattern is a
character map), lowercased. -/
def normalizedAlias (id : String) : String :=
  strLower (String.mk ((removeFirst id (entityDomain id ++ ".")).data.map
    (fun c => if c = '_' then ' ' else c)))

/-- One iteration of the `refreshCache` loop (signal-client.js lines
107-118): index the entity under its lowercase id, lowercase friendly
name (falling back on the id) and normalized id. -/
def cacheInsertEntity (c : EntityMap) (e : HAEntity) : EntityMap :=
  let id := e.entity_id
  let friendly := jsOr e.attributes.friendly_name id
  mapSet (mapSet (mapSet c (strLower id) e) (strLower friendly) e)
    (normalizedAlias id) e

/-- `refreshCache` (signal-client.js lines 103-124): iterate the
backend states into the cache.  Note the existing map is never
cleared before the loop. -/
def refreshCache (c : EntityMap) (states : List HAEntity) : EntityMap :=
  states.foldl cacheInsertEntity c

/-- Looking up after a `Map.set`: the written key now maps to the new
value and every other key is untouched. -/
lemma mapLookup_mapSet {β : Type} (c : List (String × β)) (k' k : String)
    (v : β) :
    mapLookup (mapSet c k' v) k
      = if k' = k then some v else mapLookup c k := by
  induction c with
  | nil => simp [mapSet, mapLookup]
  | cons p rest ih =>
    obtain ⟨k0, v0⟩ := p
    simp only [mapSet]
    by_cases h0 : k0 = k'
    · rw [if_pos h0]
      simp only [mapLookup]
      by_cases hk : k' = k
      · simp [hk]
      · have h0k : ¬ k0 = k := by
          rw [h0]; exact hk
        simp [hk, h0k]
    · rw [if_neg h0]
      simp only [mapLookup, ih]
      by_cases h0k : k0 = k
      · have hk : ¬ k' = k := fun hk => h0 (h0k.trans hk.symm)
        simp [h0k, hk]
      · by_cases hk : k' = k <;> simp [h0k, hk]

/-- `Map.set` never removes a key that was previously present. -/
lemma mapLookup_isSome_mapSet {β : Type} (c : List (String × β))
    (k' k : String) (v : β) (h : (mapLookup c k).isSome = true) :
    (mapLookup (mapSet c k' v) k).isSome = true := by
  rw [mapLookup_mapSet]
  split_ifs <;> simp [h]

/-- One refresh-loop iteration never removes a cached alias. -/
lemma cacheInsertEntity_preserves (c : EntityMap) (e : HAEntity)
    (k : String) (h : (mapLookup c k).isSome = true) :
    (mapLookup (cacheInsertEntity c e) k).isSome = true :=
  mapLookup_isSome_mapSet _ _ _ _
    (mapLookup_isSome_mapSet _ _ _ _ (mapLookup_isSome_mapSet _ _ _ _ h))

/-- A whole refresh never removes a cached alias. -/
lemma refreshCache_preserves :
    ∀ (states : List HAEntity) (c : EntityMap) (k : String),
      (mapLookup c k).isSome = true →
      (mapLookup (refreshCache c states) k).isSome = true := by
  intro states
  induction states with
  | nil => intro c k h; simpa [refreshCache] using h
  | cons e rest ih =>
    intro c k h
    exact ih (cacheInsertEntity c e) k (cacheInsertEntity_preserves c e k h)

/-- An entity whose previous refresh registered the alias "old name". -/
def entOld : HAEntity :=
  { entity_id := "light.a"
    state := "off"
    attributes :=
      { friendly_name := some "Old Name"
        unit_of_measurement := none
        temperature_unit := none
        current_temperature := none
        temperature := none
        brightness := none }
    last_changed := "t0" }

/-- The same entity after a rename, as returned by the backend. -/
def entNew : HAEntity :=
  { entity_id := "light.a"
    state := "on"
    attributes :=
      { friendly_name := some "New Name"
        unit_of_measurement := none
        temperature_unit := none
        current_temperature := none
        temperature := none
        brightness := none }
    last_changed := "t1" }

/-- A prior cache still holding the pre-rename friendly-name alias. -/
def staleCache : EntityMap := [("old name", entOld)]

/-- C3 counterexample: refreshing the cache `[("old name", entOld)]`
from the backend list `[entNew]` (the renamed entity) leaves the stale
alias "old name" in the cache, still mapping to the old record, which
is not an entity of the new backend list — the refresh merges instead
of fully replacing. -/
theorem refreshCache_stale_alias_cex :
    mapLookup (refreshCache staleCache [entNew]) "old name"
        = some entOld ∧
    entOld ∉ [entNew] := by
  refine ⟨by decide, ?_⟩
  intro h
  simp [entOld, entNew] at h

/-- C3 amended: `refreshCache` merges the new backend list into the
existing cache rather than replacing it: every alias present before
the refresh is still present afterwards, so stale aliases from a
previous refresh (for example a renamed entity's old friendly name)
survive the refresh. -/
theorem refreshCache_merges_amended (c : EntityMap)
    (states : List HAEntity) (k : String)
    (h : (mapLookup c k).isSome = true) :
    (mapLookup (refreshCache c states) k).isSome = true :=
  refreshCache_preserves states c k h

/-- Witness for the amended C3 theorem at a concrete cache. -/
theorem refreshCache_merges_amended_witness :
    (mapLookup (refreshCache staleCache [entNew]) "old name").isSome
      = true :=
  refreshCache_merges_amended staleCache [entNew] "old name" (by decide)

/-- `this.cacheExpiry = 5 * 60 * 1000` from the parser constructor
(signal-client.js line 100). -/
def cacheExpiry : Nat := 5 * 60 * 1000

/-- The cache-refresh decision at the top of `execute`
(signal-client.js lines 147-150): refresh only when the cache is
empty; `refreshCache` swallows a failing `getStates` (lines 121-123),
leaving the cache unchanged.  The decision takes no elapsed-time input
because the code never records a refresh time nor reads
`cacheExpiry`. -/
def executeCachePrep (c : EntityMap)
    (getStatesResult : Except String (List HAEntity)) : EntityMap :=
  if c.length = 0 then
    match getStatesResult with
    | Except.ok states => refreshCache c states
    | Except.error _ => c
  else c

/-- C4: the staleness window is configured (5 minutes = 300000 ms) but
never consulted: with a nonempty cache, `execute` does not rebuild it
from the backend — however much time has elapsed — even though a
rebuild from the new backend list would visibly change it. -/
theorem cacheStaleness_ignored_bug :
    cacheExpiry = 300000 ∧
    executeCachePrep staleCache (Except.ok [entNew]) = staleCache ∧
    refreshCache staleCache [entNew] ≠ staleCache := by
  refine ⟨rfl, rfl, ?_⟩
  decide

/-!
## Command dispatcher (signal-client.js lines 144-527, backend helpers
from the Home Assistant client)
-/

/-- The Home Assistant client surface the parser calls into.  Each
call either returns a value or fails with an error message (a thrown
JS error). -/
structure Backend where
  getStates : Except String (List HAEntity)
  getEntitiesByArea : String → Except String (List HAEntity)
  getEntitiesByType : String → Except String (List HAEntity)
  turnOn : String → Except String Unit
  turnOff : String → Except String Unit
  toggle : String → Except String Unit
  setBrightness : String → Nat → Except String Unit

/-- A backend whose every call fails with message `m`. -/
def failingBackend (m : String) : Backend :=
  { getStates := Except.error m
    getEntitiesByArea := fun _ => Except.error m
    getEntitiesByType := fun _ => Except.error m
    turnOn := fun _ => Except.error m
    turnOff := fun _ => Except.error m
    toggle := fun _ => Except.error m
    setBrightness := fun _ _ => Except.error m }

/-- A JS `try { body } catch (err) { return handler(err.message) }`
block whose body produces a reply string. -/
def jsTry (body : Except String String) (handler : String → String) :
    String :=
  match body with
  | Except.ok r => r
  | Except.error e => handler e

/-- `findEntity`, partial-match pass (signal-client.js lines 134-139):
first cache entry whose alias contains the input or is contained in
it, in cache insertion order. -/
def findPartial (c : EntityMap) (n : String) : Option HAEntity :=
  match c with
  | [] => none
  | (k, e) :: rest =>
    if strIncludes k n || strIncludes n k then some e
    else findPartial rest n

/-- `findEntity` (signal-client.js lines 126-142): exact lowercase
match first, then the substring pass. -/
def findEntity (c : EntityMap) (name : String) : Option HAEntity :=
  let normalized := strTrim (strLower name)
  match mapLookup c normalized with
  | some e => some e
  | none => findPartial c normalized

/-- `entity.attributes.friendly_name || entity.entity_id`. -/
def displayName (e : HAEntity) : String :=
  jsOr e.attributes.friendly_name e.entity_id

/-- `light.id.split('.')[1]` etc. in the area renderer. -/
structure AreaLight where
  id : String
  state : String
  brightness : Option String
deriving DecidableEq

structure AreaSwitch where
  id : String
  state : String
deriving DecidableEq

structure AreaClimate where
  id : String
  state : String
  temp : Option String
deriving DecidableEq

structure AreaSensor where
  id : String
  state : String
  unit : Option String
deriving DecidableEq

/-- The accumulator of `getAreaStateSummary` (Home Assistant client):
JS object keys `on` and `off` are `onCount` / `offCount` here. -/
structure AreaSummary where
  lights : List AreaLight
  switches : List AreaSwitch
  climate : List AreaClimate
  sensors : List AreaSensor
  locked : Nat
  unlocked : Nat
  onCount : Nat
  offCount : Nat
deriving DecidableEq

/-- `getAreaStateSummary` (Home Assistant client lines 96-130). -/
def getAreaStateSummary (entities : List HAEntity) : AreaSummary :=
  entities.foldl
    (fun summary e =>
      let domain := entityDomain e.entity_id
      let isOn := e.state == "on" || e.state == "home" || e.state == "open"
      let s1 :=
        if domain == "light" then
          { summary with lights := summary.lights
              ++ [{ id := e.entity_id, state := e.state,
                    brightness := e.attributes.brightness }] }
        else if domain == "switch" then
          { summary with switches := summary.switches
              ++ [{ id := e.entity_id, state := e.state }] }
        else if domain == "lock" then
          if e.state == "locked" then
            { summary with locked := summary.locked + 1 }
          else { summary with unlocked := summary.unlocked + 1 }
        else if domain == "climate" then
          { summary with climate := summary.climate
              ++ [{ id := e.entity_id, state := e.state,
                    temp := e.attributes.temperature }] }
        else if domain == "sensor" || domain == "binary_sensor" then
          { summary with sensors := summary.sensors
              ++ [{ id := e.entity_id, state := e.state,
                    unit := e.attributes.unit_of_measurement }] }
        else summary
      if isOn then { s1 with onCount := s1.onCount + 1 }
      else { s1 with offCount := s1.offCount + 1 })
    { lights := [], switches := [], climate := [], sensors := [],
      locked := 0, unlocked := 0, onCount := 0, offCount := 0 }

/-- The success rendering of `getFullStatus` (signal-client.js lines
256-283). -/
def renderFullStatus (states : List HAEntity) : String :=
  let lights := states.filter (fun e => strStartsWith e.entity_id "light.")
  let onLights := (lights.filter (fun e => e.state == "on")).length
  let switches :=
    states.filter (fun e => strStartsWith e.entity_id "switch.")
  let onSwitches := (switches.filter (fun e => e.state == "on")).length
  let locks := states.filter (fun e => strStartsWith e.entity_id "lock.")
  let lockedLocks := (locks.filter (fun e => e.state == "locked")).length
  let climate :=
    states.filter (fun e => strStartsWith e.entity_id "climate.")
  let tempInfo :=
    match climate with
    | [] => ""
    | ci :: _ =>
      let unit := jsOr ci.attributes.temperature_unit "°F"
      ", Climate: " ++ optStr ci.attributes.current_temperature ++ unit
        ++ " (target: " ++ optStr ci.attributes.temperature ++ unit ++ ")"
  "🏠 *Home Status*\n\n"
    ++ "• Lights: " ++ toString onLights ++ "/" ++ toString lights.length
    ++ " on\n"
    ++ "• Switches: " ++ toString onSwitches ++ "/"
    ++ toString switches.length ++ " on\n"
    ++ "• Locks: " ++ toString lockedLocks ++ "/" ++ toString locks.length
    ++ " locked" ++ tempInfo ++ "\n\n"
    ++ "Type \"list lights\" or \"status [room]\" for details."

/-- The success rendering of `getAreaStatus` (signal-client.js lines
289-328). -/
def renderAreaStatus (area : String) (entities : List HAEntity) :
    String :=
  if entities.length = 0 then "❓ No entities found in area: " ++ area
  else
    let summary := getAreaStateSummary entities
    let lightsPart :=
      if summary.lights.length > 0 then
        "*Lights:*\n"
          ++ String.join (summary.lights.map (fun l =>
            (if l.state == "on" then "💡" else "⚪") ++ " "
              ++ entitySuffix l.id ++ "\n"))
          ++ "\n"
      else ""
    let climatePart :=
      if summary.climate.length > 0 then
        "*Climate:*\n"
          ++ String.join (summary.climate.map (fun ci =>
            "🌡️ " ++ ci.state ++ " (" ++ jsOr ci.temp "no target"
              ++ ")\n"))
          ++ "\n"
      else ""
    let sensorsPart :=
      if summary.sensors.length > 0 then
        let temps := summary.sensors.filter (fun s =>
          strIncludes s.id "temp" || strIncludes s.id "humidity")
        if temps.length > 0 then
          "*Sensors:*\n"
            ++ String.join ((temps.take 5).map (fun s =>
              "📊 " ++ entitySuffix s.id ++ ": " ++ s.state
                ++ jsOr s.unit "" ++ "\n"))
        else ""
      else ""
    "🏠 *" ++ area ++ " Status*\n\n" ++ lightsPart ++ climatePart
      ++ sensorsPart

/-- The success rendering of `getTemperatureSummary`
(signal-client.js lines 334-354). -/
def renderTemps (states : List HAEntity) : String :=
  let temps := states.filter (fun e =>
    (strStartsWith e.entity_id "sensor."
        || strStartsWith e.entity_id "climate.")
      && (e.attributes.unit_of_measurement == some "°C"
        || e.attributes.unit_of_measurement == some "°F"
        || e.attributes.unit_of_measurement == some "°"))
  if temps.length = 0 then "❓ No temperature sensors found"
  else
    "🌡️ *Temperature Readings*\n\n"
      ++ String.join (temps.map (fun t =>
        "• " ++ displayName t ++ ": " ++ t.state
          ++ jsOr t.attributes.unit_of_measurement "" ++ "\n"))

/-- The success rendering of `getLockStatus` (signal-client.js lines
360-376). -/
def renderLocks (locks : List HAEntity) : String :=
  if locks.length = 0 then "🏠 No locks configured"
  else
    "🔐 *Lock Status*\n\n"
      ++ String.join (locks.map (fun l =>
        (if l.state == "locked" then "🔒" else "🔓") ++ " "
          ++ displayName l ++ "\n"))

/-- `type.charAt(0).toUpperCase() + type.slice(1)`. -/
def capitalizeFirst (s : String) : String :=
  match s.data with
  | [] => s
  | c :: rest => String.mk (c.toUpper :: rest)

/-- The success rendering of `listEntities` (signal-client.js lines
382-406). -/
def renderEntityList (ty : String) (entities : List HAEntity) : String :=
  if entities.length = 0 then "❓ No " ++ ty ++ "s found"
  else
    let onEntities := (entities.filter (fun e => e.state == "on")).map
      displayName
    let offEntities :=
      (entities.filter (fun e => !(e.state == "on"))).map displayName
    let onPart :=
      if onEntities.length > 0 then
        "💡 On (" ++ toString onEntities.length ++ "):\n"
          ++ String.intercalate ", " (onEntities.take 10) ++ "\n"
          ++ (if onEntities.length > 10 then
              "...and " ++ toString (onEntities.length - 10) ++ " more\n"
            else "")
          ++ "\n"
      else ""
    let offPart :=
      if offEntities.length > 0 then
        "⚪ Off (" ++ toString offEntities.length ++ "):\n"
          ++ String.intercalate ", " (offEntities.take 10) ++ "\n"
          ++ (if offEntities.length > 10 then
              "...and " ++ toString (offEntities.length - 10) ++ " more\n"
            else "")
      else ""
    "*" ++ capitalizeFirst ty ++ "s* (" ++ toString entities.length
      ++ " total)\n\n" ++ onPart ++ offPart

/-- Insertion of a string into a lexicographically sorted list
(JS `Array.prototype.sort` default comparator on domain keys). -/
def insertSorted (s : String) : List String → List String
  | [] => [s]
  | x :: xs => if s ≤ x then s :: x :: xs else x :: insertSorted s xs

/-- Lexicographic sort of the domain keys. -/
def sortStrings (l : List String) : List String := l.foldr insertSorted []

/-- Distinct keys in first-insertion order (JS object keys). -/
def dedupKeys (l : List String) : List String :=
  l.foldl (fun acc d => if d ∈ acc then acc else acc ++ [d]) []

/-- The success rendering of `listEntitiesByArea` (signal-client.js
lines 412-434): entities grouped by domain in insertion order, domains
sorted lexicographically. -/
def renderAreaList (area : String) (entities : List HAEntity) : String :=
  if entities.length = 0 then "❓ No entities found in: " ++ area
  else
    let domains :=
      sortStrings (dedupKeys (entities.map (fun e =>
        entityDomain e.entity_id)))
    "*Entities in " ++ area ++ "* (" ++ toString entities.length
      ++ "):\n\n"
      ++ String.join (domains.map (fun d =>
        "*" ++ d ++ ":*\n"
          ++ String.intercalate ", "
            ((entities.filter (fun e => entityDomain e.entity_id == d)).map
              displayName)
          ++ "\n\n"))

/-- `turnOn` command branch (signal-client.js lines 440-453). -/
def turnOnCmd (b : Backend) (c : EntityMap) (name : String) : String :=
  match findEntity c name with
  | none =>
    "❓ Entity not found: \"" ++ name
      ++ "\"\n\nTry \"list lights\" or \"list switches\" to see available entities."
  | some e =>
    jsTry (Except.map (fun _ => "✅ Turned on: " ++ displayName e)
        (b.turnOn e.entity_id))
      (fun err => "❌ Failed to turn on " ++ displayName e ++ ": " ++ err)

/-- `turnOff` command branch (signal-client.js lines 455-468). -/
def turnOffCmd (b : Backend) (c : EntityMap) (name : String) : String :=
  match findEntity c name with
  | none => "❓ Entity not found: \"" ++ name ++ "\""
  | some e =>
    jsTry (Except.map (fun _ => "✅ Turned off: " ++ displayName e)
        (b.turnOff e.entity_id))
      (fun err => "❌ Failed to turn off: " ++ err)

/-- `toggle` command branch (signal-client.js lines 470-484). -/
def toggleCmd (b : Backend) (c : EntityMap) (name : String) : String :=
  match findEntity c name with
  | none => "❓ Entity not found: \"" ++ name ++ "\""
  | some e =>
    jsTry (Except.map (fun _ =>
        "🔄 Toggled " ++ displayName e ++ " to "
          ++ (if e.state == "on" then "off" else "on"))
        (b.toggle e.entity_id))
      (fun err => "❌ Failed to toggle: " ++ err)

/-- `setBrightness` command branch (signal-client.js lines 486-503). -/
def setBrightnessCmd (b : Backend) (c : EntityMap) (name : String)
    (level : Nat) : String :=
  match findEntity c name with
  | none => "❓ Light not found: \"" ++ name ++ "\""
  | some e =>
    if !(strStartsWith e.entity_id "light.") then
      "❌ \"" ++ name ++ "\" is not a dimmable light"
    else
      jsTry (Except.map (fun _ =>
          "💡 Set " ++ displayName e ++ " to " ++ toString level
            ++ "% brightness")
          (b.setBrightness e.entity_id level))
        (fun err => "❌ Failed to set brightness: " ++ err)

/-- `getEntityStatus` (signal-client.js lines 505-524).  The
locale-dependent `new Date(...).toLocaleString()` is abstracted as the
raw `last_changed` string. -/
def getEntityStatusCmd (c : EntityMap) (name : String) : String :=
  match findEntity c name with
  | none => "❓ Entity not found: \"" ++ name ++ "\""
  | some e =>
    let status := e.state
    let icon :=
      if status == "on" || status == "home" then "🔵"
      else if status == "off" || status == "away" then "⚪"
      else if status == "locked" then "🔒"
      else if status == "unlocked" then "🔓"
      else "⚪"
    icon ++ " *" ++ displayName e ++ "*\nStatus: " ++ status
      ++ "\nLast changed: " ++ e.last_changed

/-- The static help text of `getHelp` (signal-client.js lines
231-253). -/
def helpText : String :=
  "🏠 *Home Assistant Bot Commands*\n\n*Device Control:*\n• turn on [name] - Turn on lights, switches\n• turn off [name] - Turn off devices  \n• toggle [name] - Toggle a switch\n• dim [name] to [%]% - Set brightness\n\n*Status:*\n• status - Full home summary\n• status [room] - Room-specific status\n• temperature - All temperature readings\n• locks - Lock status\n\n*Discovery:*\n• list lights - All lights\n• list switches - All switches\n• list [room] - Entities in room\n\n*Queries:*\n• is [name] on? - Check entity state\n• is [name] locked? - Check lock status"

/-- `getFullStatus` including its catch (signal-client.js 256-287). -/
def getFullStatus (b : Backend) : String :=
  jsTry (Except.map renderFullStatus b.getStates)
    (fun e => "❌ Error getting status: " ++ e)

/-- `getAreaStatus` including its catch (signal-client.js 289-332). -/
def getAreaStatus (b : Backend) (area : String) : String :=
  jsTry (Except.map (renderAreaStatus area) (b.getEntitiesByArea area))
    (fun e => "❌ Error getting area status: " ++ e)

/-- `getTemperatureSummary` including its catch (lines 334-358). -/
def getTemperatureSummary (b : Backend) : String :=
  jsTry (Except.map renderTemps b.getStates)
    (fun e => "❌ Error getting temperatures: " ++ e)

/-- `getLockStatus` including its catch (lines 360-380). -/
def getLockStatus (b : Backend) : String :=
  jsTry (Except.map renderLocks (b.getEntitiesByType "lock"))
    (fun e => "❌ Error getting lock status: " ++ e)

/-- `listEntities` including its catch (lines 382-410). -/
def listEntitiesCmd (b : Backend) (ty : String) : String :=
  jsTry (Except.map (renderEntityList ty) (b.getEntitiesByType ty))
    (fun e => "❌ Error listing entities: " ++ e)

/-- `listEntitiesByArea` including its catch (lines 412-438). -/
def listAreaCmd (b : Backend) (area : String) : String :=
  jsTry (Except.map (renderAreaList area) (b.getEntitiesByArea area))
    (fun e => "❌ Error listing area entities: " ++ e)

/-- Maximal leading digit run (the greedy `(\d+)` capture). -/
def digitsOf (l : List Char) : List Char := l.takeWhile Char.isDigit

/-- JS `parseInt` on a nonempty digit string. -/
def natOfDigits (l : List Char) : Nat :=
  l.foldl (fun n c => n * 10 + (c.toNat - 48)) 0

/-- Backtracking of `(.+) to (\d+)` after the literal `dim `: find the
rightmost occurrence of `" to "` followed by a digit (the greedy
`(.+)` yields the longest name), returning the name characters before
it and the maximal digit run after it.  (The model lets `.` match any
character including newline; chat commands are single-line.) -/
def dimSplitGreedy : List Char → Option (List Char × List Char)
  | [] => none
  | c :: rest =>
    match dimSplitGreedy rest with
    | some (pre, ds) => some (c :: pre, ds)
    | none =>
      if (" to ".data).isPrefixOf (c :: rest) then
        match (c :: rest).drop 4 with
        | d :: post => if d.isDigit then some ([], digitsOf (d :: post))
            else none
        | [] => none
      else none

/-- One match attempt of `/dim (.+) to (\d+)%?/` anchored at the head
of `l`: the `(.+)` capture must be nonempty.  The optional `%` follows
the digits and affects no capture. -/
def dimTryAt (l : List Char) : Option (String × Nat) :=
  if ("dim ".data).isPrefixOf l then
    match dimSplitGreedy (l.drop 4) with
    | some (pre, ds) =>
      if pre = [] then none else some (String.mk pre, natOfDigits ds)
    | none => none
  else none

/-- `cmd.match(/dim (.+) to (\d+)%?/)` (signal-client.js line 210):
the regex engine tries successive start positions left to right. -/
def jsDimMatch (cmd : String) : Option (String × Nat) :=
  go cmd.data
where
  go : List Char → Option (String × Nat)
    | [] => none
    | c :: rest =>
      match dimTryAt (c :: rest) with
      | some r => some r
      | none => go rest

/-- `execute` (signal-client.js lines 144-229) over the explicit
backend and cache: each grammar branch in source order; the `dim`
branch falls through to the query branches when the regex does not
match; every backend call is wrapped in the helper's own catch, so
each branch yields `Except.ok`. -/
def executeE (text : String) (c : EntityMap) (b : Backend) :
    Except String String :=
  let cmd := strTrim (strLower text)
  let cache := executeCachePrep c b.getStates
  if cmd == "help" || cmd == "?" then Except.ok helpText
  else if cmd == "status" then Except.ok (getFullStatus b)
  else if strStartsWith cmd "status " then
    Except.ok (getAreaStatus b (removeFirst cmd "status "))
  else if cmd == "temperature" || cmd == "temp" then
    Except.ok (getTemperatureSummary b)
  else if cmd == "locks" then Except.ok (getLockStatus b)
  else if cmd == "list lights" || cmd == "lights" then
    Except.ok (listEntitiesCmd b "light")
  else if cmd == "list switches" || cmd == "switches" then
    Except.ok (listEntitiesCmd b "switch")
  else if cmd == "list sensors" then Except.ok (listEntitiesCmd b "sensor")
  else if strStartsWith cmd "list " then
    Except.ok (listAreaCmd b (removeFirst cmd "list "))
  else if strStartsWith cmd "turn on " then
    Except.ok (turnOnCmd b cache (removeFirst cmd "turn on "))
  else if strStartsWith cmd "turn off " then
    Except.ok (turnOffCmd b cache (removeFirst cmd "turn off "))
  else if strStartsWith cmd "toggle " then
    Except.ok (toggleCmd b cache (removeFirst cmd "toggle "))
  else
    match (if strStartsWith cmd "dim " then jsDimMatch cmd else none) with
    | some (name, level) => Except.ok (setBrightnessCmd b cache name level)
    | none =>
      if strStartsWith cmd "is " && strIncludes cmd " on" then
        Except.ok (getEntityStatusCmd cache
          (removeFirst (removeFirst (removeFirst cmd "is ") " on?") " on"))
      else if strStartsWith cmd "is " && strIncludes cmd " locked" then
        Except.ok (getEntityStatusCmd cache
          (removeFirst (removeFirst (removeFirst cmd "is ") " locked?")
            " locked"))
      else
        Except.ok ("❓ I don\x27t understand: \"" ++ text
          ++ "\"\n\nType \"help\" for available commands.")

/-- Does an `Except` carry a successful reply? -/
def exceptIsOk : Except String String → Bool
  | Except.ok _ => true
  | Except.error _ => false

set_option maxHeartbeats 2000000 in
/-- C9: for every input text, every cache and every backend, `execute`
returns a reply string and never raises past the dispatcher boundary;
in particular a branch that consults the backend catches its failure
and renders it as an error-prefixed reply, shown here for the `status`
branch against a backend whose calls all fail. -/
theorem execute_total_and_catches :
    (∀ (text : String) (c : EntityMap) (b : Backend),
      ∃ r : String, executeE text c b = Except.ok r) ∧
    (∀ (c : EntityMap) (m : String),
      executeE "status" c (failingBackend m)
        = Except.ok ("❌ Error getting status: " ++ m)) := by
  constructor
  · intro text c b
    have hok : ∀ (x : Except String String), exceptIsOk x = true →
        ∃ r : String, x = Except.ok r := by
      intro x hx
      cases x with
      | ok r => exact ⟨r, rfl⟩
      | error e => simp [exceptIsOk] at hx
    apply hok
    simp only [executeE]
    generalize strTrim (strLower text) = cmd
    generalize executeCachePrep c b.getStates = cache
    by_cases h1 : (cmd == "help" || cmd == "?") = true
    · rw [if_pos h1]; rfl
    rw [if_neg h1]
    by_cases h2 : (cmd == "status") = true
    · rw [if_pos h2]; rfl
    rw [if_neg h2]
    by_cases h3 : strStartsWith cmd "status " = true
    · rw [if_pos h3]; rfl
    rw [if_neg h3]
    by_cases h4 : (cmd == "temperature" || cmd == "temp") = true
    · rw [if_pos h4]; rfl
    rw [if_neg h4]
    by_cases h5 : (cmd == "locks") = true
    · rw [if_pos h5]; rfl
    rw [if_neg h5]
    by_cases h6 : (cmd == "list lights" || cmd == "lights") = true
    · rw [if_pos h6]; rfl
    rw [if_neg h6]
    by_cases h7 : (cmd == "list switches" || cmd == "switches") = true
    · rw [if_pos h7]; rfl
    rw [if_neg h7]
    by_cases h8 : (cmd == "list sensors") = true
    · rw [if_pos h8]; rfl
    rw [if_neg h8]
    by_cases h9 : strStartsWith cmd "list " = true
    · rw [if_pos h9]; rfl
    rw [if_neg h9]
    by_cases h10 : strStartsWith cmd "turn on " = true
    · rw [if_pos h10]; rfl
    rw [if_neg h10]
    by_cases h11 : strStartsWith cmd "turn off " = true
    · rw [if_pos h11]; rfl
    rw [if_neg h11]
    by_cases h12 : strStartsWith cmd "toggle " = true
    · rw [if_pos h12]; rfl
    rw [if_neg h12]
    rcases hdm : (if strStartsWith cmd "dim " = true then jsDimMatch cmd
        else none) with _ | ⟨name, level⟩
    · by_cases h13 : (strStartsWith cmd "is " && strIncludes cmd " on")
          = true
      · rw [if_pos h13]; rfl
      rw [if_neg h13]
      by_cases h14 : (strStartsWith cmd "is " && strIncludes cmd " locked")
          = true
      · rw [if_pos h14]; rfl
      rw [if_neg h14]
      rfl
    · rfl
  · intro c m
    rfl

/-!
## Poll-loop message pipeline (src/src/signal-client.js lines 739-824)
-/

/-- Where a reply is sent: `signal.sendMessage(msg.source, reply)` or
`signal.sendMessage(null, reply, msg.groupId)`. -/
inductive SendTarget where
  | individual (recipient : String)
  | group (groupId : String)
deriving DecidableEq

/-- The authorization check of the poll loop (signal-client.js line
757): `if (!msg.isGroup && !config.allowedNumbers.includes(msg.source))
{ warn; continue; }` — a group message is always allowed; an
individual message is allowed exactly when its sender is an exact
member of the allow-list. -/
def pollAuthAllowed (allowed : List String) (m : SignalMessage) : Bool :=
  m.isGroup || decide (m.source ∈ allowed)

/-- One iteration of the poll loop for a single message
(signal-client.js lines 743-816): dedup admission, then
authorization, then the empty-text skip, then dispatch.  The dispatch
stage (group commands, `parser.execute` and reply routing, lines
773-816) is taken as a parameter producing the send actions of that
stage; every `continue` before it yields no sends. -/
def pollStep (allowed : List String) (seen : List String)
    (m : SignalMessage)
    (dispatch : SignalMessage → List (SendTarget × String)) :
    List String × List (SendTarget × String) :=
  let mid := msgId m
  if mid ∈ seen then (seen, [])
  else
    let seen' :=
      (if seen.length > messageRetention then seen.drop 1 else seen)
        ++ [mid]
    if pollAuthAllowed allowed m = false then (seen', [])
    else
      match m.message with
      | none => (seen', [])
      | some t => if strTrim t == "" then (seen', []) else (seen', dispatch m)

/-- C8: the authorization step admits an Individual-origin message iff
its sender is an exact string match against the allow-list, admits
every Group-origin message unconditionally, and a rejected message is
skipped with no send action emitted, whatever the dispatch stage would
have replied. -/
theorem authorization_gate_characterization (allowed : List String)
    (seen : List String) (m : SignalMessage)
    (dispatch : SignalMessage → List (SendTarget × String)) :
    (m.isGroup = false →
      (pollAuthAllowed allowed m = true ↔ m.source ∈ allowed)) ∧
    (m.isGroup = true → pollAuthAllowed allowed m = true) ∧
    (pollAuthAllowed allowed m = false →
      (pollStep allowed seen m dispatch).2 = []) := by
  refine ⟨?_, ?_, ?_⟩
  · intro hg
    simp [pollAuthAllowed, hg]
  · intro hg
    simp [pollAuthAllowed, hg]
  · intro hauth
    simp only [pollStep, hauth]
    split <;> rfl

/-- Witness for the C8 theorem: a group message from a sender off the
allow-list is admitted; an individual message from the same kind of
off-list sender is rejected and its poll iteration emits no sends. -/
theorem authorization_gate_characterization_witness :
    pollAuthAllowed ["+15550001111"] msgGroupAB = true ∧
    pollAuthAllowed ["+15550001111"] msgIndivAB = false ∧
    (pollStep ["+15550001111"] [] msgIndivAB
        (fun _ => [(SendTarget.individual "x", "reply")])).2 = [] := by
  refine ⟨?_, by decide, ?_⟩
  · exact (authorization_gate_characterization ["+15550001111"] []
      msgGroupAB (fun _ => [])).2.1 (by decide)
  · exact (authorization_gate_characterization ["+15550001111"] []
      msgIndivAB (fun _ => [(SendTarget.individual "x", "reply")])).2.2
      (by decide)
